import Mathlib

/-!
Shallow embedding of the FocusPals front-end decision engine: the
attention-level tracker component implemented in
src/app/ui/studio-panel/studio-panel.tsx and the dashboard content
controller implemented in src/app/dashboard/page.tsx.
-/

/-- Notification payload passed to the onAttentionChange callback. -/
structure Notif where
  attentionLevel : Int
  shouldSwitchContent : Bool
deriving DecidableEq

/-- State of the AttentionLevelTracker component: the useState and useRef
cells that drive the suggestion logic. -/
structure TrackerState where
  attentionLevel : Int
  focusScoreHistory : List Int
  averageFocusScore : Int
  showContentSuggestionModal : Bool
  lastSuggestionTime : Option Int
deriving DecidableEq

def SUGGESTION_COOLDOWN : Int := 60000

def FOCUS_HISTORY_SIZE : Nat := 5

def LOW_FOCUS_THRESHOLD : Int := 40

/-- JavaScript Math.round: half-up rounding (halves go toward positive
infinity), computed on the numerator and denominator so that the kernel
can evaluate it; jsRound_eq_floor shows it is floor(x + 1/2). -/
def jsRound (x : ℚ) : Int := (2 * x.num + x.den) / (2 * (x.den : Int))

/-- Average as computed in the tracker effect, Math.round(sum / length),
again on integers so that the kernel can evaluate it; histAvg_spec shows
it is floor(sum / length + 1/2), the rounded arithmetic mean. -/
def histAvg (h : List Int) : Int := (2 * h.sum + h.length) / (2 * (h.length : Int))

/-- Cooldown test from the effect: lastSuggestionTimeRef.current and
currentTime - lastSuggestionTimeRef.current < SUGGESTION_COOLDOWN.  A
stored 0 is falsy in JavaScript, so the t = 0 case is never on cooldown. -/
def isOnCooldown (last : Option Int) (now : Int) : Bool :=
  match last with
  | none => false
  | some t => decide (t ≠ 0) && decide (now - t < SUGGESTION_COOLDOWN)

/-- Initial component state: useState(75) twice, empty history, modal
closed, useRef(null) for the suggestion time. -/
def initialTracker : TrackerState :=
  { attentionLevel := 75, focusScoreHistory := [], averageFocusScore := 75,
    showContentSuggestionModal := false, lastSuggestionTime := none }

/-- Socket handler for a focusScoreUpdate event carrying a defined
focusScore: rounds the score, stores it as the current attention level and
appends it to the history, keeping only the most recent
FOCUS_HISTORY_SIZE entries via newHistory.slice(-FOCUS_HISTORY_SIZE). -/
def ingest (s : TrackerState) (v : ℚ) : TrackerState :=
  let r := jsRound v
  let nh := s.focusScoreHistory ++ [r]
  { s with
    attentionLevel := r,
    focusScoreHistory :=
      if FOCUS_HISTORY_SIZE < nh.length then nh.drop (nh.length - FOCUS_HISTORY_SIZE)
      else nh }

/-- One run of the effect whose dependencies are focusScoreHistory,
showContentSuggestionModal and onAttentionChange: recomputes the average,
opens the suggestion modal when the history is full, the average is below
the threshold, the cooldown is over and the modal is closed, then notifies
the host with shouldSwitchContent = false. -/
def runAvgEffect (s : TrackerState) (now : Int) : TrackerState × List Notif :=
  if s.focusScoreHistory.length = 0 then (s, [])
  else
    let avg := histAvg s.focusScoreHistory
    ({ s with
        averageFocusScore := avg,
        showContentSuggestionModal :=
          if FOCUS_HISTORY_SIZE ≤ s.focusScoreHistory.length
              ∧ avg < LOW_FOCUS_THRESHOLD
              ∧ isOnCooldown s.lastSuggestionTime now = false
              ∧ s.showContentSuggestionModal = false
          then true
          else s.showContentSuggestionModal },
     [{ attentionLevel := avg, shouldSwitchContent := false }])

/-- React re-runs the effect after a render in which one of its
dependencies changed.  Opening the modal inside the effect triggers one
more run; that run cannot change the modal again (the guard requires the
modal to be closed), so two runs reach a fixed point. -/
def stabilize (s : TrackerState) (now : Int) : TrackerState × List Notif :=
  let r1 := runAvgEffect s now
  if r1.1.showContentSuggestionModal = s.showContentSuggestionModal then r1
  else
    let r2 := runAvgEffect r1.1 now
    (r2.1, r1.2 ++ r2.2)

/-- Processing of one focusScoreUpdate socket event: an undefined
focusScore is only logged and changes nothing; a defined one is ingested,
after which the effect runs (the history dependency changed) and
cascades. -/
def sampleEvent (s : TrackerState) (focusScore : Option ℚ) (now : Int) :
    TrackerState × List Notif :=
  match focusScore with
  | none => (s, [])
  | some v => stabilize (ingest s v) now

/-- handleDismissSuggestion: records the suggestion time and closes the
modal; the effect re-runs because the modal dependency changed. -/
def dismissEvent (s : TrackerState) (now : Int) : TrackerState × List Notif :=
  let s1 := { s with lastSuggestionTime := some now,
                     showContentSuggestionModal := false }
  if s.showContentSuggestionModal then stabilize s1 now else (s1, [])

/-- handleContentChange: records the suggestion time, closes the modal and
synchronously notifies the host with shouldSwitchContent = true; the
effect then re-runs because the modal dependency changed. -/
def confirmEvent (s : TrackerState) (now : Int) : TrackerState × List Notif :=
  let s1 := { s with lastSuggestionTime := some now,
                     showContentSuggestionModal := false }
  if s.showContentSuggestionModal then
    let r := stabilize s1 now
    (r.1, { attentionLevel := s.averageFocusScore, shouldSwitchContent := true } :: r.2)
  else (s1, [{ attentionLevel := s.averageFocusScore, shouldSwitchContent := true }])

/-- Dialog onOpenChange (Escape key, click outside): the handler is
setShowContentSuggestionModal itself, so it only sets the flag and leaves
the suggestion timestamp untouched.  The effect re-runs when the flag
actually changed. -/
def openChangeEvent (s : TrackerState) (b : Bool) (now : Int) :
    TrackerState × List Notif :=
  let s1 := { s with showContentSuggestionModal := b }
  if b = s.showContentSuggestionModal then (s1, []) else stabilize s1 now

/-- Folding a sequence of defined focus-score events into the tracker. -/
def runSamples (s : TrackerState) (xs : List ℚ) (now : Int) : TrackerState :=
  xs.foldl (fun a v => (sampleEvent a (some v) now).1) s

/-- Last n entries of a list, in order. -/
def lastN (n : Nat) (l : List Int) : List Int := l.drop (l.length - n)

/-- Running a sequence of integer samples from the initial state. -/
def runIntSamples (xs : List Int) (now : Int) : TrackerState :=
  runSamples initialTracker (xs.map (fun n : Int => (n : ℚ))) now

/-!
Dashboard content controller, from src/app/dashboard/page.tsx.
-/

/-- ContentData held by the dashboard: focusScore, type, payload (none
models a null or undefined payload) and the optional timestamp added on a
confirmed switch (the initial fetch omits the field). -/
structure ContentData where
  focusScore : Int
  type : String
  data : Option Nat
  timestamp : Option Int
deriving DecidableEq

/-- Parsed JSON body of the process-pdf response.  For each format field
the outer Option is presence of the object (a missing result.text makes
result.text.data throw a TypeError, caught by the surrounding try) and the
inner Option is truthiness of its data member; the data field is the
shared fallback payload result.data. -/
structure FetchJson where
  text : Option (Option Nat)
  flipcard : Option (Option Nat)
  tiktok : Option (Option Nat)
  quiz : Option (Option Nat)
  mini : Option (Option Nat)
  data : Option Nat
deriving DecidableEq

/-- Evaluation of result.FIELD.data || result.data: throws when the field
object is absent, otherwise falls back on result.data when FIELD.data is
falsy. -/
def pickData (field : Option (Option Nat)) (fallback : Option Nat) :
    Except Unit (Option Nat) :=
  match field with
  | none => Except.error ()
  | some (some x) => Except.ok (some x)
  | some none => Except.ok fallback

/-- Lines 57-80 of fetchContent: builds the ContentData from the focus
score and the parsed response, assigning type and data by the threshold
chain; propagates the TypeError of a missing format object. -/
def buildContentData (focusScore : Int) (result : FetchJson) :
    Except Unit ContentData :=
  if focusScore > 80 then
    (pickData result.text result.data).map
      (fun d => { focusScore := focusScore, type := "text", data := d, timestamp := none })
  else if focusScore > 60 then
    (pickData result.flipcard result.data).map
      (fun d => { focusScore := focusScore, type := "flipcard", data := d, timestamp := none })
  else if focusScore > 40 then
    (pickData result.tiktok result.data).map
      (fun d => { focusScore := focusScore, type := "tiktok", data := d, timestamp := none })
  else if focusScore > 20 then
    (pickData result.quiz result.data).map
      (fun d => { focusScore := focusScore, type := "quiz", data := d, timestamp := none })
  else
    (pickData result.mini result.data).map
      (fun d => { focusScore := focusScore, type := "react", data := d, timestamp := none })

/-- Dashboard state: the currentData and attentionData useState cells and
the loading flag. -/
structure DashState where
  currentData : Option ContentData
  attentionLevel : Int
  shouldSwitchContent : Bool
  isLoading : Bool
deriving DecidableEq

/-- fetchContent: returns unchanged when no file is selected; otherwise
the response argument models the awaited fetch and json() call (error for
a network failure, a non-OK response or a malformed body).  Any throw is
caught, leaving currentData untouched; the finally clause clears the
loading flag. -/
def fetchContent (s : DashState) (hasSelectedFile : Bool)
    (response : Except Unit FetchJson) : DashState :=
  if !hasSelectedFile then s
  else
    match response with
    | Except.error _ => { s with isLoading := false }
    | Except.ok result =>
      match buildContentData s.attentionLevel result with
      | Except.error _ => { s with isLoading := false }
      | Except.ok cd => { s with currentData := some cd, isLoading := false }

/-- Threshold chain of updateContentType, lines 110-121. -/
def updateClassify (attentionLevel : Int) : String :=
  if attentionLevel > 80 then "text"
  else if attentionLevel > 60 then "flipcard"
  else if attentionLevel > 40 then "tiktok"
  else if attentionLevel > 20 then "quiz"
  else "react"

/-- updateContentType: recomputes the type from the attention level and,
only when it differs from the current one, rewrites type, focusScore and
timestamp in place; the payload field is carried over unchanged and no
fetch is performed anywhere in this function. -/
def updateContentType (s : DashState) (attentionLevel : Int) (now : Int) :
    DashState :=
  match s.currentData with
  | none => s
  | some cd =>
    let newType := updateClassify attentionLevel
    if newType ≠ cd.type then
      { s with currentData := some { cd with
          type := newType, focusScore := attentionLevel, timestamp := some now } }
    else s

/-- handleAttentionChange: stores the notification in attentionData and,
when content exists and the notification asks for a switch, runs
updateContentType. -/
def handleAttentionChange (s : DashState) (d : Notif) (now : Int) : DashState :=
  let s1 := { s with attentionLevel := d.attentionLevel,
                     shouldSwitchContent := d.shouldSwitchContent }
  if s.currentData.isSome ∧ d.shouldSwitchContent then
    updateContentType s1 d.attentionLevel now
  else s1

/-- Elapsed-time condition of the amended claim C1: the cooldown is over
when lastSuggestedAt is unset or at least 60000 ms old. -/
def cooldownOver (last : Option Int) (now : Int) : Bool :=
  match last with
  | none => true
  | some t => decide (SUGGESTION_COOLDOWN ≤ now - t)

/-- Concrete tracker state for the open_change_close_behavior witness:
modal open, full low history, suggestion time 5 with clock at 10, so the
cooldown is still running. -/
def escapeWitnessState : TrackerState :=
  { attentionLevel := 10, focusScoreHistory := [10, 10, 10, 10, 10],
    averageFocusScore := 10, showContentSuggestionModal := true,
    lastSuggestionTime := some 5 }

/-!
Basic facts about the rounding helpers and the cooldown test.
-/

theorem jsRound_eq_floor (x : ℚ) : jsRound x = Int.floor (x + 1 / 2) := by
  have hden : (x.den : ℚ) ≠ 0 := by
    exact_mod_cast x.den_nz
  have hxd : x * (x.den : ℚ) = (x.num : ℚ) := by
    nth_rewrite 1 [← Rat.num_div_den x]
    exact div_mul_cancel₀ _ hden
  have hnz : ((2 * x.den : ℕ) : ℚ) ≠ 0 :=
    Nat.cast_ne_zero.mpr (Nat.mul_ne_zero (by decide) x.den_nz)
  have key : (x + 1 / 2) * ((2 * x.den : ℕ) : ℚ) = ((2 * x.num + x.den : ℤ) : ℚ) := by
    push_cast
    linear_combination (2 : ℚ) * hxd
  have h2 : x + 1 / 2 = ((2 * x.num + x.den : ℤ) : ℚ) / ((2 * x.den : ℕ) : ℚ) :=
    (eq_div_iff hnz).mpr key
  rw [h2, Rat.floor_intCast_div_natCast]
  unfold jsRound
  push_cast
  rfl

theorem histAvg_spec (h : List Int) :
    histAvg h = Int.floor ((h.sum : ℚ) / (h.length : ℚ) + 1 / 2) := by
  rcases Nat.eq_zero_or_pos h.length with h0 | hpos
  · rw [histAvg, h0]
    norm_num
  · have hb : (h.length : ℚ) ≠ 0 := by
      exact_mod_cast Nat.pos_iff_ne_zero.mp hpos
    have hnz : ((2 * h.length : ℕ) : ℚ) ≠ 0 :=
      Nat.cast_ne_zero.mpr (Nat.mul_ne_zero (by decide) (Nat.pos_iff_ne_zero.mp hpos))
    have key : ((h.sum : ℚ) / (h.length : ℚ) + 1 / 2) * ((2 * h.length : ℕ) : ℚ)
        = ((2 * h.sum + h.length : ℤ) : ℚ) := by
      push_cast
      field_simp
      ring
    have h2 : (h.sum : ℚ) / (h.length : ℚ) + 1 / 2
        = ((2 * h.sum + h.length : ℤ) : ℚ) / ((2 * h.length : ℕ) : ℚ) :=
      (eq_div_iff hnz).mpr key
    rw [h2, Rat.floor_intCast_div_natCast]
    unfold histAvg
    push_cast
    rfl

theorem isOnCooldown_none (now : Int) : isOnCooldown none now = false := rfl

theorem isOnCooldown_some (t now : Int) :
    isOnCooldown (some t) now =
      (decide (t ≠ 0) && decide (now - t < SUGGESTION_COOLDOWN)) := rfl

/-!
Helper lemmas about the tracker transition functions.
-/

theorem runAvgEffect_nil (s : TrackerState) (now : Int)
    (h : s.focusScoreHistory = []) : runAvgEffect s now = (s, []) := by
  unfold runAvgEffect
  rw [if_pos (by simp [h])]

theorem runAvgEffect_fst_history (s : TrackerState) (now : Int) :
    ((runAvgEffect s now).1).focusScoreHistory = s.focusScoreHistory := by
  unfold runAvgEffect
  split
  · rfl
  · rfl

theorem runAvgEffect_fst_last (s : TrackerState) (now : Int) :
    ((runAvgEffect s now).1).lastSuggestionTime = s.lastSuggestionTime := by
  unfold runAvgEffect
  split
  · rfl
  · rfl

theorem runAvgEffect_fst_avg (s : TrackerState) (now : Int)
    (h : s.focusScoreHistory ≠ []) :
    ((runAvgEffect s now).1).averageFocusScore = histAvg s.focusScoreHistory := by
  unfold runAvgEffect
  rw [if_neg (by simp [h])]

theorem runAvgEffect_fst_modal (s : TrackerState) (now : Int)
    (h : s.focusScoreHistory ≠ []) :
    ((runAvgEffect s now).1).showContentSuggestionModal =
      (if FOCUS_HISTORY_SIZE ≤ s.focusScoreHistory.length
          ∧ histAvg s.focusScoreHistory < LOW_FOCUS_THRESHOLD
          ∧ isOnCooldown s.lastSuggestionTime now = false
          ∧ s.showContentSuggestionModal = false
        then true
        else s.showContentSuggestionModal) := by
  unfold runAvgEffect
  rw [if_neg (by simp [h])]

theorem runAvgEffect_snd (s : TrackerState) (now : Int)
    (h : s.focusScoreHistory ≠ []) :
    (runAvgEffect s now).2 =
      [{ attentionLevel := histAvg s.focusScoreHistory, shouldSwitchContent := false }] := by
  unfold runAvgEffect
  rw [if_neg (by simp [h])]

theorem stabilize_fst_history (s : TrackerState) (now : Int) :
    ((stabilize s now).1).focusScoreHistory = s.focusScoreHistory := by
  unfold stabilize
  dsimp only
  split
  · exact runAvgEffect_fst_history s now
  · rw [runAvgEffect_fst_history, runAvgEffect_fst_history]

theorem stabilize_fst_last (s : TrackerState) (now : Int) :
    ((stabilize s now).1).lastSuggestionTime = s.lastSuggestionTime := by
  unfold stabilize
  dsimp only
  split
  · exact runAvgEffect_fst_last s now
  · rw [runAvgEffect_fst_last, runAvgEffect_fst_last]

theorem stabilize_fst_avg (s : TrackerState) (now : Int)
    (h : s.focusScoreHistory ≠ []) :
    ((stabilize s now).1).averageFocusScore = histAvg s.focusScoreHistory := by
  unfold stabilize
  dsimp only
  split
  · exact runAvgEffect_fst_avg s now h
  · have hinner : ((runAvgEffect s now).1).focusScoreHistory ≠ [] := by
      rw [runAvgEffect_fst_history]
      exact h
    rw [runAvgEffect_fst_avg _ now hinner, runAvgEffect_fst_history]

theorem cooldownOver_iff (last : Option Int) (now : Int)
    (hpos : ∀ t, last = some t → 0 < t) :
    (cooldownOver last now = true) ↔ (isOnCooldown last now = false) := by
  cases last with
  | none => simp [cooldownOver, isOnCooldown]
  | some t =>
    have ht := hpos t rfl
    simp only [cooldownOver, isOnCooldown, decide_eq_true_eq, Bool.and_eq_false_iff,
      decide_eq_false_iff_not, not_not]
    constructor
    · intro hle
      right
      omega
    · rintro (h0 | hlt)
      · omega
      · omega
theorem stabilize_fst_modal (s : TrackerState) (now : Int) :
    ((stabilize s now).1).showContentSuggestionModal =
      ((runAvgEffect s now).1).showContentSuggestionModal := by
  unfold stabilize
  dsimp only
  split
  · rfl
  · rename_i hne
    have hm : ((runAvgEffect s now).1).showContentSuggestionModal = true := by
      by_cases h0 : s.focusScoreHistory = []
      · rw [runAvgEffect_nil s now h0] at hne
        exact absurd rfl hne
      · rw [runAvgEffect_fst_modal s now h0] at hne ⊢
        by_cases hC : FOCUS_HISTORY_SIZE ≤ s.focusScoreHistory.length
            ∧ histAvg s.focusScoreHistory < LOW_FOCUS_THRESHOLD
            ∧ isOnCooldown s.lastSuggestionTime now = false
            ∧ s.showContentSuggestionModal = false
        · rw [if_pos hC]
        · rw [if_neg hC] at hne
          exact absurd rfl hne
    by_cases hh : ((runAvgEffect s now).1).focusScoreHistory = []
    · rw [runAvgEffect_nil _ now hh]
    · rw [runAvgEffect_fst_modal _ now hh, hm]
      rw [if_neg (by simp)]

/-- C1 (amended): on a smoothed-signal update the Idle to Suggesting
transition fires iff the rolling history has at least five entries, their
rounded mean is strictly below 40, at least 60000 ms elapsed since
lastSuggestedAt (or it is unset), and the modal is not already open.  The
hypothesis records that a set suggestion timestamp is a positive clock
reading. -/
theorem suggestion_transition_iff (s : TrackerState) (now : Int)
    (hpos : ∀ t, s.lastSuggestionTime = some t → 0 < t) :
    ((runAvgEffect s now).1.showContentSuggestionModal = true
        ∧ s.showContentSuggestionModal = false)
      ↔ (5 ≤ s.focusScoreHistory.length
        ∧ histAvg s.focusScoreHistory < 40
        ∧ cooldownOver s.lastSuggestionTime now = true
        ∧ s.showContentSuggestionModal = false) := by
  by_cases h0 : s.focusScoreHistory = []
  · rw [runAvgEffect_nil s now h0]
    constructor
    · rintro ⟨h1, h2⟩
      rw [h1] at h2
      exact absurd h2 (by decide)
    · rintro ⟨h5, -⟩
      rw [h0] at h5
      exact absurd h5 (by decide)
  · rw [runAvgEffect_fst_modal s now h0, cooldownOver_iff _ now hpos]
    have hsz : FOCUS_HISTORY_SIZE = 5 := rfl
    have hth : LOW_FOCUS_THRESHOLD = 40 := rfl
    rw [hsz, hth]
    by_cases hC : 5 ≤ s.focusScoreHistory.length
        ∧ histAvg s.focusScoreHistory < 40
        ∧ isOnCooldown s.lastSuggestionTime now = false
        ∧ s.showContentSuggestionModal = false
    · rw [if_pos hC]
      exact ⟨fun _ => hC, fun _ => ⟨rfl, hC.2.2.2⟩⟩
    · rw [if_neg hC]
      constructor
      · rintro ⟨h1, h2⟩
        rw [h1] at h2
        exact absurd h2 (by decide)
      · intro hR
        exact absurd hR hC

/-- Witness for suggestion_transition_iff: a full low history, cooldown
long expired, fires the transition. -/
theorem suggestion_transition_iff_witness :
    ((runAvgEffect
        ({ attentionLevel := 10, focusScoreHistory := [10, 10, 10, 10, 10],
           averageFocusScore := 10, showContentSuggestionModal := false,
           lastSuggestionTime := some 1000 } : TrackerState) 100000).1.showContentSuggestionModal
          = true
      ∧ ({ attentionLevel := 10, focusScoreHistory := [10, 10, 10, 10, 10],
           averageFocusScore := 10, showContentSuggestionModal := false,
           lastSuggestionTime := some 1000 } : TrackerState).showContentSuggestionModal
          = false) :=
  (suggestion_transition_iff _ 100000
      (by intro t ht; simp at ht; omega)).mpr (by decide)

/-- C1 counterexample: after a dismissal at time 1000, an update at time
61000 (elapsed exactly 60000 ms, which does not strictly exceed the
cooldown) still opens the modal, against the strict reading of the
claim. -/
theorem suggestion_cooldown_strict_cex :
    ((dismissEvent (runIntSamples [10, 10, 10, 10, 10] 0) 1000).1.lastSuggestionTime
        = some 1000)
    ∧ ((dismissEvent (runIntSamples [10, 10, 10, 10, 10] 0) 1000).1.showContentSuggestionModal
        = false)
    ∧ (((sampleEvent ((dismissEvent (runIntSamples [10, 10, 10, 10, 10] 0) 1000).1)
        (some 10) 61000).1).showContentSuggestionModal = true)
    ∧ ¬((61000 : Int) - 1000 > 60000) := by decide

/-- C2: the threshold chain is identical in fetchContent (through
buildContentData) and updateContentType (updateClassify), is total on the
integers, and uses strict upper-exclusive boundaries: above 80 text, 61 to
80 flipcard, 41 to 60 tiktok, 21 to 40 quiz, at most 20 react; the edge
values 80, 60, 40 and 20 therefore land in the lower band. -/
theorem classify_bands (n : Int) (r : FetchJson) (cd : ContentData) :
    ((80 < n → updateClassify n = "text")
      ∧ (61 ≤ n → n ≤ 80 → updateClassify n = "flipcard")
      ∧ (41 ≤ n → n ≤ 60 → updateClassify n = "tiktok")
      ∧ (21 ≤ n → n ≤ 40 → updateClassify n = "quiz")
      ∧ (n ≤ 20 → updateClassify n = "react"))
    ∧ (buildContentData n r = Except.ok cd → cd.type = updateClassify n) := by
  constructor
  · unfold updateClassify
    refine ⟨?_, ?_, ?_, ?_, ?_⟩ <;> intros <;> split_ifs <;> first | rfl | omega
  · intro h
    unfold buildContentData at h
    unfold updateClassify
    split_ifs at h ⊢
    · revert h
      cases pickData r.text r.data with
      | error e => intro h; simp [Except.map] at h
      | ok d => intro h; simp [Except.map] at h; rw [← h]
    · revert h
      cases pickData r.flipcard r.data with
      | error e => intro h; simp [Except.map] at h
      | ok d => intro h; simp [Except.map] at h; rw [← h]
    · revert h
      cases pickData r.tiktok r.data with
      | error e => intro h; simp [Except.map] at h
      | ok d => intro h; simp [Except.map] at h; rw [← h]
    · revert h
      cases pickData r.quiz r.data with
      | error e => intro h; simp [Except.map] at h
      | ok d => intro h; simp [Except.map] at h; rw [← h]
    · revert h
      cases pickData r.mini r.data with
      | error e => intro h; simp [Except.map] at h
      | ok d => intro h; simp [Except.map] at h; rw [← h]

/-- Witness for classify_bands at the edge value 80: it classifies to the
lower band flipcard, in fetchContent and updateContentType alike. -/
theorem classify_bands_witness :
    (updateClassify 80 = "flipcard")
      ∧ (ContentData.type { focusScore := 80, type := "flipcard", data := some 1,
                            timestamp := none } = updateClassify 80) :=
  ⟨(classify_bands 80
      { text := some (some 1), flipcard := some (some 1), tiktok := some (some 1),
        quiz := some (some 1), mini := some (some 1), data := some 2 }
      { focusScore := 80, type := "flipcard", data := some 1,
        timestamp := none }).1.2.1 (by decide) (by decide),
   (classify_bands 80
      { text := some (some 1), flipcard := some (some 1), tiktok := some (some 1),
        quiz := some (some 1), mini := some (some 1), data := some 2 }
      { focusScore := 80, type := "flipcard", data := some 1,
        timestamp := none }).2 (by rfl)⟩

/-!
Window lemmas for the smoothing history (claim C3).
-/

theorem lastN_of_le (l : List Int) (h : l.length ≤ 5) : lastN 5 l = l := by
  unfold lastN
  rw [Nat.sub_eq_zero_of_le h, List.drop_zero]

theorem jsRound_intCast (n : Int) : jsRound ((n : Int) : ℚ) = n := by
  unfold jsRound
  rw [Rat.num_intCast, Rat.den_intCast]
  push_cast
  omega

theorem ingest_history (s : TrackerState) (v : ℚ) :
    (ingest s v).focusScoreHistory = lastN 5 (s.focusScoreHistory ++ [jsRound v]) := by
  unfold ingest
  dsimp only
  have hsz : FOCUS_HISTORY_SIZE = 5 := rfl
  rw [hsz]
  split_ifs with h
  · rfl
  · rw [lastN_of_le _ (by omega)]

theorem lastN_absorb (l m : List Int) :
    lastN 5 (lastN 5 l ++ m) = lastN 5 (l ++ m) := by
  by_cases hl : l.length ≤ 5
  · rw [lastN_of_le l hl]
  · have hk : l.length - 5 ≤ l.length := Nat.sub_le _ _
    unfold lastN
    rw [← List.drop_append_of_le_length hk, List.drop_drop]
    congr 1
    simp only [List.length_drop, List.length_append]
    omega

theorem lastN_append_ne_nil (l : List Int) (a : Int) : lastN 5 (l ++ [a]) ≠ [] := by
  unfold lastN
  intro hc
  have hlen := congrArg List.length hc
  simp only [List.length_drop, List.length_append, List.length_cons,
    List.length_nil] at hlen
  omega

theorem sampleEvent_some_history (s : TrackerState) (v : ℚ) (now : Int) :
    ((sampleEvent s (some v) now).1).focusScoreHistory
      = lastN 5 (s.focusScoreHistory ++ [jsRound v]) := by
  show ((stabilize (ingest s v) now).1).focusScoreHistory = _
  rw [stabilize_fst_history, ingest_history]

theorem sampleEvent_some_avg (s : TrackerState) (v : ℚ) (now : Int) :
    ((sampleEvent s (some v) now).1).averageFocusScore
      = histAvg (lastN 5 (s.focusScoreHistory ++ [jsRound v])) := by
  show ((stabilize (ingest s v) now).1).averageFocusScore = _
  rw [stabilize_fst_avg _ now (by rw [ingest_history]; exact lastN_append_ne_nil _ _),
    ingest_history]

theorem runSamples_history_avg (xs : List ℚ) (now : Int) :
    ∀ s : TrackerState, xs ≠ [] →
      ((runSamples s xs now).focusScoreHistory
          = lastN 5 (s.focusScoreHistory ++ xs.map jsRound))
        ∧ ((runSamples s xs now).averageFocusScore
          = histAvg (lastN 5 (s.focusScoreHistory ++ xs.map jsRound))) := by
  induction xs with
  | nil => exact fun s h => absurd rfl h
  | cons v rest ih =>
    intro s _
    have hstep : runSamples s (v :: rest) now
        = runSamples ((sampleEvent s (some v) now).1) rest now := rfl
    by_cases hr : rest = []
    · subst hr
      rw [hstep]
      have hnil : runSamples ((sampleEvent s (some v) now).1) [] now
          = (sampleEvent s (some v) now).1 := rfl
      rw [hnil]
      exact ⟨sampleEvent_some_history s v now, sampleEvent_some_avg s v now⟩
    · obtain ⟨ih1, ih2⟩ := ih ((sampleEvent s (some v) now).1) hr
      rw [hstep]
      constructor
      · rw [ih1, sampleEvent_some_history, lastN_absorb]
        simp [List.append_assoc]
      · rw [ih2, sampleEvent_some_history, lastN_absorb]
        simp [List.append_assoc]

/-- C3: after any nonempty sequence of valid integer samples, the rolling
history holds the last min(length, 5) samples in FIFO order and the
smoothed signal is their rounded arithmetic mean. -/
theorem smoother_window_mean (xs : List Int) (now : Int)
    (_hvalid : ∀ x ∈ xs, 0 ≤ x ∧ x ≤ 100) (hne : xs ≠ []) :
    (runIntSamples xs now).focusScoreHistory = lastN 5 xs
      ∧ (runIntSamples xs now).averageFocusScore = histAvg (lastN 5 xs) := by
  have hmap : (xs.map (fun n : Int => (n : ℚ))).map jsRound = xs := by
    rw [List.map_map]
    have hcomp : jsRound ∘ (fun n : Int => (n : ℚ)) = id := by
      funext n
      exact jsRound_intCast n
    rw [hcomp, List.map_id]
  have hxs : xs.map (fun n : Int => (n : ℚ)) ≠ [] := by
    simp [hne]
  obtain ⟨h1, h2⟩ := runSamples_history_avg (xs.map (fun n : Int => (n : ℚ))) now
    initialTracker hxs
  unfold runIntSamples
  rw [h1, h2, hmap]
  have hinit : initialTracker.focusScoreHistory = [] := rfl
  rw [hinit, List.nil_append]
  exact ⟨rfl, rfl⟩

/-- Witness for smoother_window_mean on six samples: the window holds the
last five and the average is their rounded mean. -/
theorem smoother_window_mean_witness :
    (runIntSamples [10, 20, 30, 40, 50, 60] 0).focusScoreHistory
        = lastN 5 [10, 20, 30, 40, 50, 60]
      ∧ (runIntSamples [10, 20, 30, 40, 50, 60] 0).averageFocusScore
        = histAvg (lastN 5 [10, 20, 30, 40, 50, 60]) :=
  smoother_window_mean [10, 20, 30, 40, 50, 60] 0 (by decide) (by decide)

/-!
Notification flags and the dashboard handler (claim C4).
-/

theorem runAvgEffect_snd_flags (s : TrackerState) (now : Int) :
    ∀ n ∈ (runAvgEffect s now).2, n.shouldSwitchContent = false := by
  unfold runAvgEffect
  split
  · intro n hn
    cases hn
  · intro n hn
    simp only [List.mem_singleton] at hn
    rw [hn]

theorem stabilize_snd_flags (s : TrackerState) (now : Int) :
    ∀ n ∈ (stabilize s now).2, n.shouldSwitchContent = false := by
  unfold stabilize
  dsimp only
  split
  · exact runAvgEffect_snd_flags s now
  · intro n hn
    rw [List.mem_append] at hn
    rcases hn with h | h
    · exact runAvgEffect_snd_flags s now n h
    · exact runAvgEffect_snd_flags _ now n h

theorem handleAttentionChange_no_switch (sd : DashState) (n : Notif) (nd : Int)
    (h : n.shouldSwitchContent = false) :
    (handleAttentionChange sd n nd).currentData = sd.currentData := by
  unfold handleAttentionChange
  dsimp only
  rw [if_neg (by simp [h])]

/-- C4: every notification emitted by a smoothed update carries
shouldSwitchContent = false, and folding any sequence of notifications
with shouldSwitchContent = false through the dashboard handler leaves
currentData, hence the active format, unchanged. -/
theorem attention_update_never_switches (st : TrackerState) (fs : Option ℚ)
    (nt : Int) (sd : DashState) (ns : List Notif) (nd : Int)
    (h : ∀ n ∈ ns, n.shouldSwitchContent = false) :
    (∀ n ∈ (sampleEvent st fs nt).2, n.shouldSwitchContent = false)
      ∧ (ns.foldl (fun a n => handleAttentionChange a n nd) sd).currentData
          = sd.currentData := by
  constructor
  · cases fs with
    | none =>
      intro n hn
      cases hn
    | some v => exact stabilize_snd_flags _ nt
  · revert h
    induction ns generalizing sd with
    | nil =>
      intro h
      rfl
    | cons n rest ih =>
      intro h
      rw [List.foldl_cons,
        ih (handleAttentionChange sd n nd) (fun m hm => h m (List.mem_cons_of_mem n hm)),
        handleAttentionChange_no_switch sd n nd (h n (List.mem_cons_self n rest))]

/-- Witness for attention_update_never_switches: one false-flag
notification leaves the stored content untouched. -/
theorem attention_update_never_switches_witness :
    (([{ attentionLevel := 30, shouldSwitchContent := false }] : List Notif).foldl
        (fun a n => handleAttentionChange a n 0)
        { currentData := some { focusScore := 75, type := "text", data := some 5,
                                timestamp := none },
          attentionLevel := 75, shouldSwitchContent := false,
          isLoading := false }).currentData
      = ({ currentData := some { focusScore := 75, type := "text", data := some 5,
                                 timestamp := none },
           attentionLevel := 75, shouldSwitchContent := false,
           isLoading := false } : DashState).currentData :=
  (attention_update_never_switches initialTracker (some 50) 0 _ _ 0 (by decide)).2

/-- C5: updateContentType on a confirmed switch from format text with
attention level 15 rewrites type, focusScore and timestamp but carries the
old text payload over unchanged, and performs no fetch (none exists on
this code path), so the stored payload no longer corresponds to the
active format. -/
theorem switch_keeps_stale_payload :
    updateContentType
        { currentData := some { focusScore := 90, type := "text", data := some 7,
                                timestamp := none },
          attentionLevel := 90, shouldSwitchContent := true, isLoading := false }
        15 12345
      = { currentData := some { focusScore := 15, type := "react", data := some 7,
                                timestamp := some 12345 },
          attentionLevel := 90, shouldSwitchContent := true, isLoading := false } := by
  decide

/-- C6: a confirmed switch whose signal classifies to the format already
active is a no-op: the dashboard state is returned unchanged and
updateContentType invokes no fetch. -/
theorem same_format_switch_noop (s : DashState) (lvl now : Int)
    (cd : ContentData) (hc : s.currentData = some cd)
    (ht : updateClassify lvl = cd.type) :
    updateContentType s lvl now = s := by
  unfold updateContentType
  rw [hc]
  dsimp only
  rw [if_neg (by simp [ht])]

/-- Witness for same_format_switch_noop: signal 50 classifies to tiktok,
which is already active. -/
theorem same_format_switch_noop_witness :
    updateContentType
        { currentData := some { focusScore := 50, type := "tiktok", data := some 3,
                                timestamp := none },
          attentionLevel := 50, shouldSwitchContent := true, isLoading := false }
        50 999
      = { currentData := some { focusScore := 50, type := "tiktok", data := some 3,
                                timestamp := none },
          attentionLevel := 50, shouldSwitchContent := true, isLoading := false } :=
  same_format_switch_noop _ 50 999
    { focusScore := 50, type := "tiktok", data := some 3, timestamp := none }
    rfl (by decide)

/-- C9: a failing fetch (network error, non-OK response, malformed body,
or a missing format object in the response) leaves currentData exactly as
it was; failed fetches are never partially applied. -/
theorem fetch_failure_preserves_content (s : DashState) (hf : Bool)
    (resp : Except Unit FetchJson)
    (hfail : resp = Except.error ()
      ∨ ∃ r, resp = Except.ok r
          ∧ buildContentData s.attentionLevel r = Except.error ()) :
    (fetchContent s hf resp).currentData = s.currentData := by
  cases hf with
  | false => rfl
  | true =>
    rcases hfail with he | ⟨r, hr, hberr⟩
    · subst he
      rfl
    · subst hr
      show DashState.currentData
          (match buildContentData s.attentionLevel r with
            | Except.error _ => { s with isLoading := false }
            | Except.ok cd => { s with currentData := some cd, isLoading := false })
        = s.currentData
      rw [hberr]

/-- Witness for fetch_failure_preserves_content on a network error. -/
theorem fetch_failure_preserves_content_witness :
    (fetchContent
        { currentData := some { focusScore := 75, type := "text", data := some 5,
                                timestamp := none },
          attentionLevel := 75, shouldSwitchContent := false, isLoading := true }
        true (Except.error ())).currentData
      = ({ currentData := some { focusScore := 75, type := "text", data := some 5,
                                 timestamp := none },
           attentionLevel := 75, shouldSwitchContent := false,
           isLoading := true } : DashState).currentData :=
  fetch_failure_preserves_content _ true (Except.error ()) (Or.inl rfl)

/-!
Validation, notification counting and the dialog close path
(claims C7, C8, C10).
-/

/-- C7 counterexample: the out-of-range score 150 and the non-integer
score 7/2 (written as an explicit reduced fraction) both pass the
undefined check, are rounded, and enter the smoothing window, changing the
window contents and the smoothed signal, while the claim says they are
rejected with the window unaffected. -/
theorem malformed_sample_enters_window_cex :
    initialTracker.focusScoreHistory = []
      ∧ ((sampleEvent initialTracker (some ((150 : Int) : ℚ)) 0).1.focusScoreHistory
          = [150])
      ∧ ((sampleEvent initialTracker (some ((150 : Int) : ℚ)) 0).1.averageFocusScore
          = 150)
      ∧ ((sampleEvent initialTracker
            (some (⟨7, 2, by decide, by decide⟩ : ℚ)) 0).1.focusScoreHistory
          = [4]) := by decide

/-- C7 (amended): only an event whose focusScore is undefined is rejected
(logged, state and window untouched, nothing emitted); every defined
score, integer or not, in range or not, is rounded and appended to the
window. -/
theorem sample_validation_behavior (s : TrackerState) (now : Int) :
    (sampleEvent s none now).1 = s
      ∧ (sampleEvent s none now).2 = []
      ∧ ∀ v : ℚ, ((sampleEvent s (some v) now).1).focusScoreHistory
          = lastN 5 (s.focusScoreHistory ++ [jsRound v]) :=
  ⟨rfl, rfl, fun v => sampleEvent_some_history s v now⟩

theorem runAvgEffect_modal_cases (s : TrackerState) (now : Int) :
    ((runAvgEffect s now).1).showContentSuggestionModal = s.showContentSuggestionModal
      ∨ (((runAvgEffect s now).1).showContentSuggestionModal = true
        ∧ s.showContentSuggestionModal = false) := by
  by_cases h0 : s.focusScoreHistory = []
  · rw [runAvgEffect_nil s now h0]
    exact Or.inl rfl
  · rw [runAvgEffect_fst_modal s now h0]
    split_ifs with hC
    · exact Or.inr ⟨rfl, hC.2.2.2⟩
    · exact Or.inl rfl

theorem runAvgEffect_modal_ne (s : TrackerState) (now : Int)
    (hne : ((runAvgEffect s now).1).showContentSuggestionModal
      ≠ s.showContentSuggestionModal) :
    ((runAvgEffect s now).1).showContentSuggestionModal = true
      ∧ s.showContentSuggestionModal = false := by
  rcases runAvgEffect_modal_cases s now with h | h
  · exact absurd h hne
  · exact h

theorem sampleEvent_some_modal (s : TrackerState) (v : ℚ) (now : Int) :
    ((sampleEvent s (some v) now).1).showContentSuggestionModal
      = ((runAvgEffect (ingest s v) now).1).showContentSuggestionModal :=
  stabilize_fst_modal (ingest s v) now

/-- C8 counterexample: the fifth low sample is a single inbound event, yet
two attentionChanged notifications reach the host: the effect runs for the
history change, opens the modal, and is re-run by the modal dependency
change. -/
theorem single_notification_cex :
    ((sampleEvent (runIntSamples [10, 10, 10, 10] 0) (some 10) 0).2).length = 2 := by
  decide

/-- C8 (amended): an inbound event with a defined focusScore emits exactly
one notification, except when the update opens the suggestion modal, in
which case the effect re-runs on the modal dependency and exactly two are
emitted; an undefined-score event emits none. -/
theorem per_event_notification_count (s : TrackerState) (v : ℚ) (now : Int) :
    ((sampleEvent s (some v) now).2).length
        = (if ((sampleEvent s (some v) now).1).showContentSuggestionModal = true
              ∧ s.showContentSuggestionModal = false
           then 2 else 1)
      ∧ (sampleEvent s none now).2 = [] := by
  refine ⟨?_, rfl⟩
  have hmod : (ingest s v).showContentSuggestionModal
      = s.showContentSuggestionModal := rfl
  have hh : (ingest s v).focusScoreHistory ≠ [] := by
    rw [ingest_history]
    exact lastN_append_ne_nil _ _
  have hh1 : ((runAvgEffect (ingest s v) now).1).focusScoreHistory ≠ [] := by
    rw [runAvgEffect_fst_history]
    exact hh
  rw [sampleEvent_some_modal]
  show ((stabilize (ingest s v) now).2).length = _
  unfold stabilize
  dsimp only
  split
  · rename_i heq
    rw [runAvgEffect_snd _ now hh, if_neg]
    · rfl
    · rintro ⟨h1, h2⟩
      rw [heq, hmod] at h1
      rw [h1] at h2
      exact absurd h2 (by decide)
  · rename_i hne
    obtain ⟨hm1, hm0⟩ := runAvgEffect_modal_ne (ingest s v) now hne
    rw [runAvgEffect_snd _ now hh, runAvgEffect_snd _ now hh1, if_pos]
    · rfl
    · exact ⟨hm1, by rw [← hmod]; exact hm0⟩

/-- C10 counterexample: with a full low history and no cooldown running,
closing the dialog through onOpenChange does not leave the modal closed
until the next smoothed update: the effect re-runs on the flag change and
re-opens it immediately (lastSuggestedAt stays unset). -/
theorem escape_close_reopens_cex :
    ((runIntSamples [10, 10, 10, 10, 10] 0).showContentSuggestionModal = true)
      ∧ ((openChangeEvent (runIntSamples [10, 10, 10, 10, 10] 0) false
            50000).1.showContentSuggestionModal = true)
      ∧ ((openChangeEvent (runIntSamples [10, 10, 10, 10, 10] 0) false
            50000).1.lastSuggestionTime = none) := by decide

/-- C10 (amended): closing the dialog through onOpenChange leaves
lastSuggestedAt unchanged, so no cooldown begins; because the effect
re-runs on the flag change, the modal is immediately open again exactly
when the history is full, its rounded mean is below 40 and no cooldown is
active, and only stays closed otherwise (until a qualifying update). -/
theorem open_change_close_behavior (s : TrackerState) (now : Int)
    (hmodal : s.showContentSuggestionModal = true) :
    ((openChangeEvent s false now).1.lastSuggestionTime = s.lastSuggestionTime)
      ∧ ((openChangeEvent s false now).1.showContentSuggestionModal = true
        ↔ (5 ≤ s.focusScoreHistory.length
          ∧ histAvg s.focusScoreHistory < 40
          ∧ isOnCooldown s.lastSuggestionTime now = false)) := by
  unfold openChangeEvent
  dsimp only
  rw [if_neg (by rw [hmodal]; decide)]
  constructor
  · exact stabilize_fst_last _ now
  · rw [stabilize_fst_modal _ now]
    by_cases h0 : s.focusScoreHistory = []
    · rw [runAvgEffect_nil _ now
        (show ({ s with showContentSuggestionModal := false }
          : TrackerState).focusScoreHistory = [] from h0)]
      constructor
      · intro hc
        exact absurd (show (false : Bool) = true from hc) (by decide)
      · rintro ⟨h5, -⟩
        rw [h0] at h5
        exact absurd h5 (by decide)
    · rw [runAvgEffect_fst_modal _ now
        (show ({ s with showContentSuggestionModal := false }
          : TrackerState).focusScoreHistory ≠ [] from h0)]
      have hsz : FOCUS_HISTORY_SIZE = 5 := rfl
      have hth : LOW_FOCUS_THRESHOLD = 40 := rfl
      rw [hsz, hth]
      split_ifs with hC
      · exact ⟨fun _ => ⟨hC.1, hC.2.1, hC.2.2.1⟩, fun _ => rfl⟩
      · constructor
        · intro hc
          exact absurd hc (by decide)
        · intro hR
          exact absurd ⟨hR.1, hR.2.1, hR.2.2, rfl⟩ hC

/-- Witness for open_change_close_behavior: with the cooldown running, the
Escape close leaves the suggestion time alone and the modal stays
closed. -/
theorem open_change_close_behavior_witness :
    ((openChangeEvent escapeWitnessState false 10).1.lastSuggestionTime
        = escapeWitnessState.lastSuggestionTime)
      ∧ ((openChangeEvent escapeWitnessState false 10).1.showContentSuggestionModal
            = true
        ↔ (5 ≤ escapeWitnessState.focusScoreHistory.length
          ∧ histAvg escapeWitnessState.focusScoreHistory < 40
          ∧ isOnCooldown escapeWitnessState.lastSuggestionTime 10 = false)) :=
  open_change_close_behavior escapeWitnessState 10 rfl
